import Mathlib

/-!
Shallow embedding of the moleCad ingestion pipeline
(src/molecad/data/downloader.py) together with the helper modules it
imports.  The four functions of downloader.py — url_builder,
request_property_data_json, delay_iterations and execute_requests — are
translated directly from the source.  The helper modules
molecad.data.utils (chunked, concat, generate_ids), molecad.validator and
molecad.types_ are not part of the provided sources, so those definitions
are modelled from the specification, as marked in their doc comments.
Machine time (time.monotonic, time.sleep) is modelled as an integer clock
threaded through the iteration, with an oracle list giving the time the
consumer spends between successive pulls.  Exceptions are modelled as an
explicit error type returned through Except.
-/

/-- Python exception values that can cross the boundaries of the embedded
functions: the requests library transport error, the json decoding error
raised by Response.json on a malformed body, dictionary subscript errors,
and the three validation errors of molecad.errors. -/
inductive PyExc where
  | httpError
  | jsonDecodeError
  | keyError
  | typeError
  | badDomainError
  | badNamespaceError
  | badOperationError
deriving DecidableEq

/-- Minimal JSON value model for response bodies. -/
inductive Json where
  | null : Json
  | str : String → Json
  | num : Int → Json
  | arr : List Json → Json
  | obj : List (String × Json) → Json

/-- Python dictionary subscript d[k]: KeyError when the key is absent,
TypeError when the value is not a dictionary. -/
def Json.lookup (j : Json) (key : String) : Except PyExc Json :=
  match j with
  | Json.obj kvs =>
    match List.lookup key kvs with
    | some v => Except.ok v
    | none => Except.error PyExc.keyError
  | _ => Except.error PyExc.typeError

/-- Modelled from the spec: molecad.data.utils.concat is missing from the
sources; the spec says fragments are joined by a fixed separator, and the
identifier and tag lists are joined with commas.  The separator is passed
explicitly. -/
def concat (args : List String) (sep : String) : String :=
  match args with
  | [] => ""
  | [a] => a
  | a :: rest => a ++ sep ++ concat rest sep

namespace Domain

/-- Modelled from the spec: molecad.types_ is missing from the sources;
the one legal domain value, as in src/molecad/main.py. -/
def COMPOUND : String := "compound"

end Domain

namespace NamespCmpd

/-- Modelled from the spec: the compound namespace, as in
src/molecad/main.py. -/
def CID : String := "cid"

end NamespCmpd

namespace OperationComplex

/-- Modelled from the spec: the complex operation name, as in
src/molecad/main.py. -/
def PROPERTY : String := "property"

end OperationComplex

namespace Out

/-- Modelled from the spec: the output format, as in src/molecad/main.py. -/
def JSON : String := "JSON"

end Out

/-- Modelled from the spec: molecad.validator is missing from the sources;
the domain must belong to the supported set, which currently has exactly
one legal value. -/
def is_compound (domain : String) : Bool :=
  domain == Domain.COMPOUND

/-- Modelled from the spec: molecad.validator is missing from the sources;
a simple namespace is a namespace carrying only a prefix value, with the
suffix absent. -/
def is_simple_namespace (np : String) (ns : Option String) : Bool :=
  ns.isNone

/-- Modelled from the spec: molecad.validator is missing from the sources;
a search namespace has a prefix value together with a compatible, non-null
suffix.  The spec does not enumerate the compatible pairs, so the
compatibility table is an explicit parameter. -/
def is_namespace_search (compat : String → String → Bool) (np : String)
    (ns : Option String) : Bool :=
  match ns with
  | none => false
  | some sfx => compat np sfx

/-- Modelled from the spec: molecad.validator is missing from the sources;
a complex operation has tags present and non-empty. -/
def is_complex_operation (operation : String) (tags : Option (List String)) : Bool :=
  match tags with
  | none => false
  | some ts => !ts.isEmpty

/-- Modelled from the spec: molecad.validator is missing from the sources;
a simple operation has tags absent. -/
def is_simple_operation (operation : String) (tags : Option (List String)) : Bool :=
  tags.isNone

def BASE_URL : String := "https://pubchem.ncbi.nlm.nih.gov/rest/pug"

/-- Translation of url_builder (downloader.py lines 47-109).  Validation
happens in source order: domain, then namespace, then operation; every
failing check returns the corresponding error and no URL.  Identifiers are
already rendered as strings; the compatibility table of the search
namespace check is passed through. -/
def url_builder (compat : String → String → Bool) (ids : List String)
    (domain : String) (np : String) (ns : Option String) (operation : String)
    (tags : Option (List String)) (output : String) : Except PyExc String :=
  if is_compound domain = false then Except.error PyExc.badDomainError
  else
    match
      (if is_simple_namespace np ns then Except.ok np
       else if is_namespace_search compat np ns then
         Except.ok (concat [np, ns.getD ""] "/")
       else Except.error PyExc.badNamespaceError : Except PyExc String) with
    | Except.error e => Except.error e
    | Except.ok joined_namespaces =>
      let joined_identifiers := concat ids ","
      let input_spec := concat [domain, joined_namespaces, joined_identifiers] "/"
      match
        (if is_complex_operation operation tags then
           Except.ok (concat [operation, concat (tags.getD []) ","] "/")
         else if is_simple_operation operation tags then Except.ok operation
         else Except.error PyExc.badOperationError : Except PyExc String) with
      | Except.error e => Except.error e
      | Except.ok operation_spec =>
        Except.ok (concat [BASE_URL, input_spec, operation_spec, output] "/")

/-- The construction sentence of spec section 4.3, written from the words
of the spec for refinement comparison with url_builder: join identifiers
with commas; domain, namespace segment and joined identifiers form the
input segment; a complex operation appends the comma-joined tags to the
operation name; base address, input segment, operation segment and output
format are joined by the fixed separator. -/
def url_from_spec_words (ids : List String) (domain : String) (np : String)
    (ns : Option String) (operation : String) (tags : Option (List String))
    (output : String) : String :=
  let joined_ids := concat ids ","
  let ns_seg :=
    match ns with
    | none => np
    | some sfx => np ++ "/" ++ sfx
  let input_seg := domain ++ "/" ++ ns_seg ++ "/" ++ joined_ids
  let op_seg :=
    match tags with
    | none => operation
    | some ts => operation ++ "/" ++ concat ts ","
  BASE_URL ++ "/" ++ input_seg ++ "/" ++ op_seg ++ "/" ++ output

/-- An HTTP response as seen by the code: a status code and a body which
either parses as JSON or is malformed (none). -/
structure HttpResponse where
  status : Nat
  body : Option Json

/-- Translation of request_property_data_json (downloader.py lines
112-126): requests.get(url).json() followed by the subscripts
["PropertyTable"]["Properties"].  Response.json raises the JSON decoding
error on a malformed body; the status code is never consulted because the
source never calls raise_for_status, so no path raises the requests
transport error PyExc.httpError.  The optional query parameters only
change the URL sent, not the response handling, and execute_requests
passes none. -/
def request_property_data_json (resp : HttpResponse) : Except PyExc Json :=
  match resp.body with
  | none => Except.error PyExc.jsonDecodeError
  | some j =>
    match j.lookup "PropertyTable" with
    | Except.error e => Except.error e
    | Except.ok pt => pt.lookup "Properties"

/-- The window pruning loop of delay_iterations (downloader.py lines
148-149): pop from the front while the head is strictly older than
t - waiting_time. -/
def pruneWindow (waiting_time t : Int) : List Int → List Int
  | [] => []
  | x :: xs => if t - waiting_time > x then pruneWindow waiting_time t xs else x :: xs

/-- One resumption of the delay_iterations generator body after a yield
(downloader.py lines 146-153): the clock advanced by the consumer gap
gives t = time.monotonic(); t is appended to the window; the window is
pruned; if the window length exceeds maxsize the generator sleeps for
t - window[0], advancing the clock by that amount.  Returns the clock at
the next yield and the new window. -/
def delayStep (waiting_time : Int) (maxsize : Nat) (clock : Int)
    (window : List Int) (gap : Int) : Int × List Int :=
  let t := clock + gap
  let w := pruneWindow waiting_time t (window ++ [t])
  if maxsize < w.length then (t + (t - w.headD 0), w) else (t, w)

/-- The iteration of delay_iterations as a trace: each element is the
yielded item, the clock at the instant it is yielded, and the window of
recorded timestamps at that instant.  The oracle list gaps gives the time
the consumer spends before pulling again after each yield. -/
def delayRun (waiting_time : Int) (maxsize : Nat) :
    List α → List Int → Int → List Int → List (α × Int × List Int)
  | [], _, _, _ => []
  | x :: xs, gaps, clock, window =>
    (x, clock, window) ::
      (let s := delayStep waiting_time maxsize clock window (gaps.headD 0)
       delayRun waiting_time maxsize xs gaps.tail s.1 s.2)

/-- Translation of delay_iterations (downloader.py lines 129-153), run
from clock 0 with an empty window. -/
def delay_iterations (items : List α) (gaps : List Int) (waiting_time : Int)
    (maxsize : Nat) : List (α × Int × List Int) :=
  delayRun waiting_time maxsize items gaps 0 []

/-- The per-batch loop of execute_requests (downloader.py lines 192-209).
Each list entry is the outcome of the try block for one batch: ok with the
parsed record list, or the exception it raised.  The except clauses are
translated case by case: the transport error breaks out of the loop (a
clean end of the generator), each of the three validation errors logs and
continues with the next batch, the else branch yields every record in
order, and any other exception propagates out of the generator, which is
recorded in the second component. -/
def execute_loop : List (Except PyExc (List α)) → List α × Option PyExc
  | [] => ([], none)
  | Except.ok recs :: rest =>
    let r := execute_loop rest
    (recs ++ r.1, r.2)
  | Except.error PyExc.httpError :: _ => ([], none)
  | Except.error PyExc.badDomainError :: rest => execute_loop rest
  | Except.error PyExc.badNamespaceError :: rest => execute_loop rest
  | Except.error PyExc.badOperationError :: rest => execute_loop rest
  | Except.error PyExc.jsonDecodeError :: _ => ([], some PyExc.jsonDecodeError)
  | Except.error PyExc.keyError :: _ => ([], some PyExc.keyError)
  | Except.error PyExc.typeError :: _ => ([], some PyExc.typeError)

/-- Modelled from the spec: molecad.data.utils.generate_ids is missing
from the sources; a finite ascending sequence over the half-open range
from start (inclusive) to stop (exclusive). -/
def generate_ids (start stop : Nat) : List Nat :=
  List.range' start (stop - start)

/-- Modelled from the spec: molecad.data.utils.chunked is missing from the
sources; it partitions a sequence into ordered batches of length n, the
final one possibly shorter, preserving order and never dropping or
duplicating elements.  The spec leaves n = 0 unspecified; it is guarded to
the empty result here. -/
def chunked : List α → Nat → List (List α)
  | [], _ => []
  | _ :: _, 0 => []
  | x :: xs, n + 1 => (x :: xs).take (n + 1) :: chunked (xs.drop n) (n + 1)
termination_by l _ => l.length
decreasing_by
  simp only [List.length_drop, List.length_cons]
  omega

namespace PropertyTags

/-- Modelled from the spec: molecad.types_ is missing from the sources;
the property tag vocabulary, with the string values used in
src/molecad/main.py. -/
def MOLECULAR_FORMULA : String := "MolecularFormula"

def MOLECULAR_WEIGHT : String := "MolecularWeight"

def CANONICAL_SMILES : String := "CanonicalSMILES"

def INCHI : String := "InChI"

def IUPAC_NAME : String := "IUPACName"

def XLOGP : String := "XLogP"

def H_BOND_DONOR_COUNT : String := "HBondDonorCount"

def H_BOND_ACCEPTOR_COUNT : String := "HBondAcceptorCount"

def ROTATABLE_BOND_COUNT : String := "RotatableBondCount"

def ATOM_STEREO_COUNT : String := "AtomStereoCount"

def BOND_STEREO_COUNT : String := "BondStereoCount"

def VOLUME_3D : String := "Volume3D"

end PropertyTags

/-- Translation of execute_requests (downloader.py lines 156-209): the
identifier range is chunked, rate limited by delay_iterations with its
default parameters, and each chunk is turned into a URL by url_builder
with the fixed request dictionary d of the source; the network is an
oracle from the URL to the outcome of request_property_data_json, and the
loop body is execute_loop. -/
def execute_requests (compat : String → String → Bool)
    (net : String → Except PyExc (List Json)) (gaps : List Int)
    (start stop maxsize : Nat) : List Json × Option PyExc :=
  let tags := [PropertyTags.MOLECULAR_FORMULA, PropertyTags.MOLECULAR_WEIGHT,
    PropertyTags.CANONICAL_SMILES, PropertyTags.INCHI, PropertyTags.IUPAC_NAME,
    PropertyTags.XLOGP, PropertyTags.H_BOND_DONOR_COUNT,
    PropertyTags.H_BOND_ACCEPTOR_COUNT, PropertyTags.ROTATABLE_BOND_COUNT,
    PropertyTags.ATOM_STEREO_COUNT, PropertyTags.BOND_STEREO_COUNT,
    PropertyTags.VOLUME_3D]
  let chunks := chunked (generate_ids start stop) maxsize
  execute_loop
    (((delay_iterations chunks gaps 60 400).map fun p => p.1).map fun chunk =>
      match url_builder compat (chunk.map toString) Domain.COMPOUND
          NamespCmpd.CID none OperationComplex.PROPERTY (some tags) Out.JSON with
      | Except.error e => Except.error e
      | Except.ok url => net url)

theorem delayRun_map_fst {α : Type} (waiting_time : Int) (maxsize : Nat) :
    ∀ (items : List α) (gaps : List Int) (clock : Int) (window : List Int),
      (delayRun waiting_time maxsize items gaps clock window).map (fun p => p.1) = items := by
  intro items
  induction items with
  | nil => intro gaps clock window; rfl
  | cons x xs ih => intro gaps clock window; simp only [delayRun, List.map_cons, ih]

/-- C10: for every finite input and every positive maxsize and waiting
time, delay_iterations yields exactly the input sequence in order, nothing
dropped or duplicated; the throttle affects only the recorded times. -/
theorem delay_iterations_preserves_items {α : Type} (items : List α) (gaps : List Int)
    (waiting_time : Int) (maxsize : Nat) (hw : 0 < waiting_time) (hm : 0 < maxsize) :
    (delay_iterations items gaps waiting_time maxsize).map (fun p => p.1) = items :=
  delayRun_map_fst waiting_time maxsize items gaps 0 []

/-- Witness for C10 at a concrete input. -/
theorem delay_iterations_preserves_items_witness :
    0 < (1 : Int) ∧ 0 < 2 ∧
      (delay_iterations [10, 20, 30] [0, 0, 0] 1 2).map (fun p => p.1) = [10, 20, 30] :=
  ⟨by decide, by decide,
    delay_iterations_preserves_items [10, 20, 30] [0, 0, 0] 1 2 (by decide) (by decide)⟩

/-- C5 (code bug evaluation): rate limiter with maxsize 2 and waiting time
1, fed 4 items with zero inter-arrival time, emits every item at clock 0:
the third and fourth items are available immediately, not one second after
the first and second, because the source sleeps for the elapsed time
t - window[0] instead of the remaining time, and that elapsed time is 0 in
a burst. -/
theorem delay_iterations_burst_not_delayed :
    ((delay_iterations [1, 2, 3, 4] [0, 0, 0, 0] 1 2).map fun p => p.2.1)
      = [0, 0, 0, 0] := by decide

/-- C3 (code bug evaluation): with maxsize 2 and waiting time 1 and four
items in a burst, the count of recorded timestamps lying in the trailing
window at each emission instant is 0, 1, 2, 3: at the fourth emission the
count is 3, which exceeds maxsize. -/
theorem delay_iterations_window_count_exceeds_maxsize :
    ((delay_iterations [1, 2, 3, 4] [0, 0, 0, 0] 1 2).map fun p =>
        ((p.2.2).filter fun w => decide (p.2.1 - 1 ≤ w ∧ w ≤ p.2.1)).length)
      = [0, 1, 2, 3] ∧ ¬ (3 ≤ 2) := by decide

/-- C1 (code bug evaluation): request_property_data_json raises KeyError
on a non-success response whose body is the well-formed fault document,
and the JSON decoding error on a malformed body; neither is the requests
transport error, because the source never calls raise_for_status. -/
theorem request_property_data_json_error_kinds :
    request_property_data_json
        ⟨404, some (Json.obj [("Fault", Json.str "PUGREST.NotFound")])⟩
      = Except.error PyExc.keyError
  ∧ request_property_data_json ⟨500, none⟩ = Except.error PyExc.jsonDecodeError
  ∧ PyExc.keyError ≠ PyExc.httpError
  ∧ PyExc.jsonDecodeError ≠ PyExc.httpError :=
  ⟨rfl, rfl, by decide, by decide⟩

/-- C2: if the transport error occurs on batch j, the orchestrator loop
yields exactly the records of the successful batches before j, in order,
and nothing thereafter; the result does not depend on the batches after j
and the generator ends cleanly. -/
theorem execute_requests_transport_error_truncates {α : Type} (pre : List (List α))
    (rest : List (Except PyExc (List α))) :
    execute_loop (pre.map Except.ok ++ Except.error PyExc.httpError :: rest)
      = (pre.flatten, none) := by
  induction pre with
  | nil => rfl
  | cons b bs ih => simp [execute_loop, ih]

/-- C6: each of the three validation errors makes the orchestrator loop
skip the affected batch and continue with the remaining batches unchanged:
the erroring batch contributes no record and never terminates the
pipeline. -/
theorem execute_requests_validation_error_skips {α : Type} (pre : List (List α))
    (e : PyExc)
    (he : e = PyExc.badDomainError ∨ e = PyExc.badNamespaceError ∨
      e = PyExc.badOperationError)
    (rest : List (Except PyExc (List α))) :
    execute_loop (pre.map Except.ok ++ Except.error e :: rest)
      = execute_loop (pre.map Except.ok ++ rest) := by
  induction pre with
  | nil => rcases he with h | h | h <;> subst h <;> rfl
  | cons b bs ih => simp only [List.map_cons, List.cons_append, execute_loop, List.append_eq, ih]

/-- Witness for C6 at a concrete input. -/
theorem execute_requests_validation_error_skips_witness :
    execute_loop ([[1, 2]].map Except.ok ++ Except.error PyExc.badDomainError :: [Except.ok [3]])
      = execute_loop ([[1, 2]].map Except.ok ++ [Except.ok [3]])
  ∧ execute_loop ([[1, 2]].map Except.ok ++ [Except.ok [3]]) = ([1, 2, 3], none) :=
  ⟨execute_requests_validation_error_skips [[1, 2]] PyExc.badDomainError (Or.inl rfl)
      [Except.ok [3]],
    by decide⟩

/-- C8: every successful batch contributes exactly its records,
individually and in response order, after which the loop proceeds with the
remaining batches. -/
theorem execute_requests_success_yields_in_order {α : Type} (pre : List (List α))
    (rest : List (Except PyExc (List α))) :
    execute_loop (pre.map Except.ok ++ rest)
      = (pre.flatten ++ (execute_loop rest).1, (execute_loop rest).2) := by
  induction pre with
  | nil => simp
  | cons b bs ih => simp [execute_loop, ih]

/-- C4: url_builder validates in source order and produces no URL on
failure: an unsupported domain gives the domain error; with a supported
domain, a namespace that is neither simple nor search gives the namespace
error; with a supported domain and a valid namespace, an operation that is
neither complex nor simple gives the operation error.  The function is
pure, so no network request is involved in any of these outcomes. -/
theorem url_builder_validation_order (compat : String → String → Bool) (ids : List String)
    (domain : String) (np : String) (ns : Option String) (operation : String)
    (tags : Option (List String)) (output : String) :
    (is_compound domain = false →
        url_builder compat ids domain np ns operation tags output
          = Except.error PyExc.badDomainError)
  ∧ (is_compound domain = true → is_simple_namespace np ns = false →
        is_namespace_search compat np ns = false →
        url_builder compat ids domain np ns operation tags output
          = Except.error PyExc.badNamespaceError)
  ∧ (is_compound domain = true →
        (is_simple_namespace np ns = true ∨ is_namespace_search compat np ns = true) →
        is_complex_operation operation tags = false →
        is_simple_operation operation tags = false →
        url_builder compat ids domain np ns operation tags output
          = Except.error PyExc.badOperationError) := by
  refine ⟨fun h => by simp [url_builder, h],
    fun hd hs hse => by simp [url_builder, hd, hs, hse], ?_⟩
  rintro hd (hs | hse) hc hso
  · simp [url_builder, hd, hs, hc, hso]
  · have hsimple : is_simple_namespace np ns = false := by
      cases ns with
      | none => simp [is_namespace_search] at hse
      | some sfx => simp [is_simple_namespace]
    simp [url_builder, hd, hsimple, hse, hc, hso]

/-- Witness for C4: each validation error produced at a concrete input. -/
theorem url_builder_validation_order_witness :
    url_builder (fun _ _ => false) ["1", "2"] "invalid" "cid" none "property"
        (some ["MolecularWeight"]) "JSON" = Except.error PyExc.badDomainError
  ∧ url_builder (fun _ _ => false) ["1", "2"] "compound" "cid" (some "xxx") "property"
        (some ["MolecularWeight"]) "JSON" = Except.error PyExc.badNamespaceError
  ∧ url_builder (fun _ _ => false) ["1", "2"] "compound" "cid" none "property"
        (some []) "JSON" = Except.error PyExc.badOperationError :=
  ⟨(url_builder_validation_order (fun _ _ => false) ["1", "2"] "invalid" "cid" none
      "property" (some ["MolecularWeight"]) "JSON").1 (by decide),
    (url_builder_validation_order (fun _ _ => false) ["1", "2"] "compound" "cid"
      (some "xxx") "property" (some ["MolecularWeight"]) "JSON").2.1 (by decide)
      (by decide) (by decide),
    (url_builder_validation_order (fun _ _ => false) ["1", "2"] "compound" "cid" none
      "property" (some []) "JSON").2.2 (by decide) (Or.inl (by decide)) (by decide)
      (by decide)⟩

/-- C7: url_builder is a deterministic pure function — in this embedding
it is a function of its arguments and of nothing else, exactly as the
source function has no side effects, so identical inputs always give an
identical result — and on every valid input its URL equals the
construction stated in the spec.  The first conjunct is the refinement
against url_from_spec_words, the definition written from the construction
sentence of spec section 4.3; the second spells that construction out in
place: the base address, the input segment (domain, namespace segment,
comma-joined identifiers) and the operation segment (the operation name,
with the comma-joined tags appended when tags are present) and the output
format, joined by the fixed separator. -/
theorem url_builder_matches_spec_construction (compat : String → String → Bool)
    (ids : List String) (domain : String) (np : String) (ns : Option String)
    (operation : String) (tags : Option (List String)) (output : String)
    (hd : is_compound domain = true)
    (hns : is_simple_namespace np ns = true ∨ is_namespace_search compat np ns = true)
    (hop : is_complex_operation operation tags = true ∨
      is_simple_operation operation tags = true) :
    (url_builder compat ids domain np ns operation tags output
      = Except.ok (url_from_spec_words ids domain np ns operation tags output))
  ∧ url_from_spec_words ids domain np ns operation tags output
      = BASE_URL ++ "/"
          ++ (domain ++ "/"
            ++ (match ns with
                | none => np
                | some sfx => np ++ "/" ++ sfx) ++ "/" ++ concat ids ",")
          ++ "/"
          ++ (match tags with
              | none => operation
              | some ts => operation ++ "/" ++ concat ts ",")
          ++ "/" ++ output := by
  refine ⟨?_, by cases ns <;> cases tags <;> rfl⟩
  cases ns with
  | none =>
    cases tags with
    | none =>
      simp [url_builder, url_from_spec_words, hd, is_simple_namespace,
        is_complex_operation, is_simple_operation, concat, String.append_assoc]
    | some ts =>
      have hc : is_complex_operation operation (some ts) = true := by
        rcases hop with h | h
        · exact h
        · simp [is_simple_operation] at h
      simp [url_builder, url_from_spec_words, hd, is_simple_namespace, hc,
        concat, String.append_assoc]
  | some sfx =>
    have hse : is_namespace_search compat np (some sfx) = true := by
      rcases hns with h | h
      · simp [is_simple_namespace] at h
      · exact h
    cases tags with
    | none =>
      simp [url_builder, url_from_spec_words, hd, is_simple_namespace, hse,
        is_complex_operation, is_simple_operation, concat, String.append_assoc]
    | some ts =>
      have hc : is_complex_operation operation (some ts) = true := by
        rcases hop with h | h
        · exact h
        · simp [is_simple_operation] at h
      simp [url_builder, url_from_spec_words, hd, is_simple_namespace, hse, hc,
        concat, String.append_assoc]

/-- Witness for C7: the URL built for a concrete valid request, with the
resulting string evaluated. -/
theorem url_builder_matches_spec_construction_witness :
    url_builder (fun _ _ => false) ["1", "2"] "compound" "cid" none "property"
        (some ["MolecularFormula", "MolecularWeight"]) "JSON"
      = Except.ok (url_from_spec_words ["1", "2"] "compound" "cid" none "property"
          (some ["MolecularFormula", "MolecularWeight"]) "JSON")
  ∧ url_from_spec_words ["1", "2"] "compound" "cid" none "property"
        (some ["MolecularFormula", "MolecularWeight"]) "JSON"
      = "https://pubchem.ncbi.nlm.nih.gov/rest/pug/compound/cid/1,2/property/MolecularFormula,MolecularWeight/JSON" :=
  ⟨(url_builder_matches_spec_construction (fun _ _ => false) ["1", "2"] "compound" "cid"
      none "property" (some ["MolecularFormula", "MolecularWeight"]) "JSON" (by decide)
      (Or.inl (by decide)) (Or.inl (by decide))).1,
    by decide⟩

theorem chunked_flatten {α : Type} : ∀ (l : List α) (m : Nat), m ≠ 0 →
    (chunked l m).flatten = l := by
  intro l m
  induction l, m using chunked.induct with
  | case1 m2 => intro _; simp [chunked]
  | case2 x xs => intro h; exact absurd rfl h
  | case3 x xs n ih =>
    intro _
    have ih2 := ih (Nat.succ_ne_zero n)
    simp [chunked, ih2, List.take_succ_cons]

theorem chunked_dropLast_length {α : Type} : ∀ (l : List α) (m : Nat), m ≠ 0 →
    ∀ c ∈ (chunked l m).dropLast, c.length = m := by
  intro l m
  induction l, m using chunked.induct with
  | case1 m2 => intro _ c hc; simp [chunked] at hc
  | case2 x xs => intro h; exact absurd rfl h
  | case3 x xs n ih =>
    intro _ c hc
    have ih2 := ih (Nat.succ_ne_zero n)
    rcases hrest : chunked (xs.drop n) (n + 1) with _ | ⟨r, rs⟩
    · simp [chunked, hrest] at hc
    · have hne : xs.drop n ≠ [] := by
        intro hnil
        rw [hnil] at hrest
        simp [chunked] at hrest
      have hlen : n ≤ xs.length := by
        by_contra hlt
        exact hne (List.drop_eq_nil_of_le (by omega))
      simp only [chunked, hrest, List.dropLast_cons₂, List.mem_cons] at hc
      rcases hc with hc | hc
      · subst hc
        simp [List.length_take]
        omega
      · exact ih2 c (by rw [hrest]; exact hc)

/-- C9: for every start below stop and every positive chunk size, chunking
the identifier range and flattening the chunks in order reproduces the
range exactly, every chunk except possibly the last has length exactly n,
and the concrete range from 1 to 5 with chunk size 2 gives the chunks
[1, 2] then [3, 4]. -/
theorem chunked_generate_ids_partition (start stop n : Nat) (hss : start < stop)
    (hn : 0 < n) :
    (chunked (generate_ids start stop) n).flatten = generate_ids start stop
  ∧ (∀ c ∈ (chunked (generate_ids start stop) n).dropLast, c.length = n)
  ∧ chunked (generate_ids 1 5) 2 = [[1, 2], [3, 4]] :=
  ⟨chunked_flatten (generate_ids start stop) n (Nat.pos_iff_ne_zero.mp hn),
    chunked_dropLast_length (generate_ids start stop) n (Nat.pos_iff_ne_zero.mp hn),
    by
      have h : generate_ids 1 5 = [1, 2, 3, 4] := rfl
      rw [h]
      rw [chunked.eq_def]
      norm_num
      rw [chunked.eq_def]
      norm_num
      rw [chunked.eq_def]⟩

/-- Witness for C9 at the concrete scenario of the spec. -/
theorem chunked_generate_ids_partition_witness :
    (1 : Nat) < 5 ∧ (0 : Nat) < 2
  ∧ (chunked (generate_ids 1 5) 2).flatten = generate_ids 1 5
  ∧ chunked (generate_ids 1 5) 2 = [[1, 2], [3, 4]] :=
  ⟨by decide, by decide,
    (chunked_generate_ids_partition 1 5 2 (by decide) (by decide)).1,
    (chunked_generate_ids_partition 1 5 2 (by decide) (by decide)).2.2⟩
